import Mathlib

/-!
Shallow embedding of the `llm-chat` terminal chat client (Go) and proofs
about its provider streaming core, registry, session orchestration,
history export, shell-mode formatting and prompt assessment.

Go strings are modelled as `List Char` (`Str`) where character-level
processing matters, and as Lean `String` where only whole-value equality
and ordering are used (provider names, model identifiers, error text).
Go `time.Time` values are opaque instants (`GoTime := Nat`); the Go time
formatting routines live in the standard library, outside this
repository, so export formatting is quantified over arbitrary renderers.
Go `float64` is modelled as `ℚ` (the only operations used are exact
comparisons against 0) and Go `int` as `ℤ`.
-/

/-- Go strings at character granularity. -/
abbrev Str := List Char

/-- Convert a Lean string literal to the character-list model. -/
def str (s : String) : Str := s.data

/-- Opaque instant standing for Go `time.Time`. -/
abbrev GoTime := Nat

/-- Go `error` values carry only their message here. -/
abbrev GoErr := String

/- ### `pkg/models/message.go` -/

/-- Role of a message sender (`models.Role`); the program only
constructs the three declared constants. -/
inductive Role where
  | system
  | user
  | assistant
deriving DecidableEq, Repr

/-- The Go `string(msg.Role)` conversion. -/
def roleString : Role → String
  | .system => "system"
  | .user => "user"
  | .assistant => "assistant"

/-- `models.Message`. -/
structure Message where
  role : Role
  content : Str
  timestamp : GoTime
deriving DecidableEq, Repr

/-- `models.ChatRequest` (the `Metadata` map is never populated by the
program and is omitted). -/
structure ChatRequest where
  messages : List Message
  temperature : ℚ
  maxTokens : ℤ
  stream : Bool
deriving DecidableEq, Repr

/-- `models.StreamChunk`. -/
structure StreamChunk where
  content : Str
  done : Bool
  error : Option GoErr
deriving DecidableEq, Repr

/- ### Character-level string primitives used by the Go code -/

/-- Whether `pat` is a prefix of `s` (Boolean, by characters). -/
def strStarts : Str → Str → Bool
  | _, [] => true
  | [], _ :: _ => false
  | c :: cs, p :: ps => c == p && strStarts cs ps

/-- Go `strings.Contains(s, pat)`: byte-level substring search; for the
ASCII patterns used by this program, byte positions and character
positions coincide, so character-level search is faithful. -/
def strContains (s pat : Str) : Bool :=
  match s with
  | [] => strStarts [] pat
  | _ :: cs => strStarts s pat || strContains cs pat

/-- Go `strings.ContainsAny(s, set)`: some character of `set` occurs. -/
def strContainsAny (s set : Str) : Bool :=
  s.any (fun c => set.contains c)

/-- Whitespace per Go `unicode.IsSpace`, restricted to the code points
this ASCII/Latin-1 text processing can meet. -/
def isGoSpace (c : Char) : Bool :=
  c = ' ' || c = '\t' || c = '\n' || c = '\x0b' || c = '\x0c' || c = '\r'
    || c.val = 0x85 || c.val = 0xA0

/-- Helper for `strings.Fields`: counts maximal nonspace runs; the flag
records whether the previous character was inside a word. -/
def fieldsAux : Str → Bool → Nat
  | [], _ => 0
  | c :: cs, inWord =>
    if isGoSpace c then fieldsAux cs false
    else (if inWord then 0 else 1) + fieldsAux cs true

/-- Go `len(strings.Fields(s))`. -/
def wordCount (s : Str) : Nat := fieldsAux s false

/-- Go `len(s)`: the UTF-8 byte length. -/
def utf8Len (s : Str) : Nat := (s.map Char.utf8Size).sum

/-- Go `strings.ToLower`, faithful on the ASCII range the marker tables
live in. -/
def lowerGo (s : Str) : Str := s.map Char.toLower

/-- Go `strings.Count(s, sub)` for a single-character `sub` (the only
shape the program uses): the number of occurrences of that character. -/
def countChar (s : Str) (c : Char) : Nat := s.count c

/-- Go `strings.ReplaceAll(s, old, new)` for a single-character `old`
(the only shape `FormatOutput` uses). -/
def replaceChar (a : Char) (rep : Str) : Str → Str
  | [] => []
  | c :: cs => (if c = a then rep else [c]) ++ replaceChar a rep cs

/- ### Provider streaming producers

Each provider's `StreamMessage` starts one goroutine that translates the
vendor's native stream into `StreamChunk`s.  The producers are embedded
as pure functions from the native event sequence to the list of chunks
sent before the channel is closed, modelling the uncancelled execution.

`groq.go`, `together.go` and `samba.go` share one loop verbatim: call
`stream.Recv()`; a received error ends the loop (an error whose message
is `"EOF"` or contains `"EOF"` maps to a clean terminal chunk, any other
error to a terminal chunk carrying it); a received response emits one
content chunk when it has at least one choice.  `stream.Recv` on a
finished SSE stream returns `io.EOF`, so a native stream is a list of
successful responses followed by one terminating error. -/

/-- The `err.Error() == "EOF" || strings.Contains(err.Error(), "EOF")`
test from the OpenAI-compatible providers' stream loops. -/
def errIsEOF (e : GoErr) : Bool :=
  e == "EOF" || strContains (str e) (str "EOF")

/-- One native SSE response: the delta contents of its choices. -/
abbrev OpenAIStreamResp := List Str

/-- Chunk sequence produced by the shared groq/together/samba stream
loop on a native stream of `resps` terminated by error `e`. -/
def openAIProducer : List OpenAIStreamResp → GoErr → List StreamChunk
  | [], e =>
    if errIsEOF e then [{ content := [], done := true, error := none }]
    else [{ content := [], done := true, error := some e }]
  | choices :: rest, e =>
    (match choices with
     | [] => []
     | c :: _ => [{ content := c, done := false, error := none }]) ++
      openAIProducer rest e

/-- One native Gemini streaming response: the parts of its first
candidate's content (`resp.Candidates[0].Content.Parts`). -/
abbrev GeminiStreamResp := List Str

/-- Chunk sequence produced by `GeminiProvider.StreamMessage`'s loop:
`iter.Next()` yields responses until `iterator.Done` (modelled by
`terminalErr = none`) or an error; each response emits one chunk per
part. -/
def geminiProducer : List GeminiStreamResp → Option GoErr → List StreamChunk
  | [], terminalErr =>
    match terminalErr with
    | none => [{ content := [], done := true, error := none }]
    | some e => [{ content := [], done := true, error := some e }]
  | parts :: rest, terminalErr =>
    parts.map (fun pt => { content := pt, done := false, error := none }) ++
      geminiProducer rest terminalErr

/-- One native Ollama callback event: the message content of an
`api.ChatResponse` and its `Done` flag. -/
abbrev OllamaEvent := Str × Bool

/-- Chunk sequence produced by `OllamaProvider.StreamMessage`'s
goroutine: the callback forwards every native event as a chunk with
`Done := resp.Done`; if `client.Chat` then returns an error, one final
error chunk is sent. -/
def ollamaProducer (events : List OllamaEvent) (chatErr : Option GoErr) :
    List StreamChunk :=
  events.map (fun ev => { content := ev.1, done := ev.2, error := none }) ++
    (match chatErr with
     | some e =>
       [{ content := [], done := true,
          error := some ("ollama streaming error: " ++ e) }]
     | none => [])

/-- Boundary contract of the Ollama native API assumed by the claim: a
successful `Chat` call delivers `Done=true` exactly on its final
callback event, and a failed call delivers only `Done=false` events
before the failure. -/
def OllamaNativeOk (events : List OllamaEvent) (chatErr : Option GoErr) : Prop :=
  match chatErr with
  | some _ => ∀ ev ∈ events, ev.2 = false
  | none => ∃ pre fin, events = pre ++ [fin] ∧ fin.2 = true ∧
      ∀ ev ∈ pre, ev.2 = false

/-- Number of chunks with `done = true` in a sequence. -/
def doneCount (cs : List StreamChunk) : Nat := (cs.filter (·.done)).length

/- ### Channel-send structure of the producer goroutines

Each send a producer goroutine performs is recorded together with
whether the source wraps it in a `select` arm against `ctx.Done()`.  An
unguarded send on the capacity-10 chunk channel blocks forever once the
consumer has stopped receiving and the buffer is full, even after the
caller's context is cancelled; a guarded send always completes by taking
the cancellation arm. -/

structure SendOp where
  chunk : StreamChunk
  guarded : Bool
deriving DecidableEq, Repr

/-- Whether a send can block forever after context cancellation with a
full channel and no receiver: exactly the unguarded sends. -/
def sendCanBlockAfterCancel (s : SendOp) : Bool := !s.guarded

/-- Send operations of the shared groq/together/samba stream goroutine:
every `chunkChan <- ...` in `groq.go` (and its verbatim copies) is a
plain send, not a `select`. -/
def openAISendOps : List OpenAIStreamResp → GoErr → List SendOp
  | [], e =>
    if errIsEOF e then
      [{ chunk := { content := [], done := true, error := none },
         guarded := false }]
    else
      [{ chunk := { content := [], done := true, error := some e },
         guarded := false }]
  | choices :: rest, e =>
    (match choices with
     | [] => []
     | c :: _ =>
       [{ chunk := { content := c, done := false, error := none },
          guarded := false }]) ++ openAISendOps rest e

/-- Send operations of `GroqProvider.StreamMessage`'s goroutine. -/
def groqSendOps (rs : List OpenAIStreamResp) (e : GoErr) : List SendOp :=
  openAISendOps rs e

/-- Send operations of `TogetherProvider.StreamMessage`'s goroutine
(the loop body is verbatim identical to groq's). -/
def togetherSendOps (rs : List OpenAIStreamResp) (e : GoErr) : List SendOp :=
  openAISendOps rs e

/-- Send operations of `SambaProvider.StreamMessage`'s goroutine
(the loop body is verbatim identical to groq's). -/
def sambaSendOps (rs : List OpenAIStreamResp) (e : GoErr) : List SendOp :=
  openAISendOps rs e

/-- Send operations of `GeminiProvider.StreamMessage`'s goroutine: all
sends are plain `chunkChan <- ...`, no `select`. -/
def geminiSendOps : List GeminiStreamResp → Option GoErr → List SendOp
  | [], terminalErr =>
    match terminalErr with
    | none =>
      [{ chunk := { content := [], done := true, error := none },
         guarded := false }]
    | some e =>
      [{ chunk := { content := [], done := true, error := some e },
         guarded := false }]
  | parts :: rest, terminalErr =>
    parts.map (fun pt =>
      { chunk := { content := pt, done := false, error := none },
        guarded := false }) ++ geminiSendOps rest terminalErr

/-- Send operations of `OllamaProvider.StreamMessage`'s goroutine: both
send sites (the per-event send inside the callback and the final forced
error send) are `select` arms against `ctx.Done()`. -/
def ollamaSendOps (events : List OllamaEvent) (chatErr : Option GoErr) :
    List SendOp :=
  events.map (fun ev =>
    { chunk := { content := ev.1, done := ev.2, error := none },
      guarded := true }) ++
    (match chatErr with
     | some e =>
       [{ chunk := { content := [], done := true,
                     error := some ("ollama streaming error: " ++ e) },
          guarded := true }]
     | none => [])

/- ### Provider request construction (`SendMessage` / `StreamMessage`) -/

/-- `openai.ChatCompletionMessage`. -/
structure OpenAIChatMessage where
  role : String
  content : Str
deriving DecidableEq, Repr

/-- The fields of `openai.ChatCompletionRequest` this program sets. -/
structure OpenAIChatRequest where
  model : String
  messages : List OpenAIChatMessage
  temperature : ℚ
  maxTokens : ℤ
  stream : Bool
deriving DecidableEq, Repr

/-- Message conversion shared by the hosted providers. -/
def toOpenAIMessages (ms : List Message) : List OpenAIChatMessage :=
  ms.map (fun m => { role := roleString m.role, content := m.content })

/-- Request built by `GroqProvider.SendMessage`: temperature and max
tokens are set unconditionally. -/
def groqSendRequest (model : String) (req : ChatRequest) : OpenAIChatRequest :=
  { model := model, messages := toOpenAIMessages req.messages,
    temperature := req.temperature, maxTokens := req.maxTokens,
    stream := false }

/-- Request built by `GroqProvider.StreamMessage`. -/
def groqStreamRequest (model : String) (req : ChatRequest) : OpenAIChatRequest :=
  { model := model, messages := toOpenAIMessages req.messages,
    temperature := req.temperature, maxTokens := req.maxTokens,
    stream := true }

/-- Request built by `TogetherProvider.SendMessage`. -/
def togetherSendRequest (model : String) (req : ChatRequest) : OpenAIChatRequest :=
  { model := model, messages := toOpenAIMessages req.messages,
    temperature := req.temperature, maxTokens := req.maxTokens,
    stream := false }

/-- Request built by `TogetherProvider.StreamMessage`. -/
def togetherStreamRequest (model : String) (req : ChatRequest) : OpenAIChatRequest :=
  { model := model, messages := toOpenAIMessages req.messages,
    temperature := req.temperature, maxTokens := req.maxTokens,
    stream := true }

/-- Request built by `SambaProvider.SendMessage`. -/
def sambaSendRequest (model : String) (req : ChatRequest) : OpenAIChatRequest :=
  { model := model, messages := toOpenAIMessages req.messages,
    temperature := req.temperature, maxTokens := req.maxTokens,
    stream := false }

/-- Request built by `SambaProvider.StreamMessage`. -/
def sambaStreamRequest (model : String) (req : ChatRequest) : OpenAIChatRequest :=
  { model := model, messages := toOpenAIMessages req.messages,
    temperature := req.temperature, maxTokens := req.maxTokens,
    stream := true }

/-- Values stored in the Ollama `Options` map (`map[string]interface{}`). -/
inductive OptVal where
  | num (q : ℚ)
  | int (n : ℤ)
deriving DecidableEq, Repr

/-- The `Options` map built by `OllamaProvider.SendMessage`: `none`
models the nil map; the temperature entry exists only when
`req.Temperature > 0` and the `num_predict` entry only when
`req.MaxTokens > 0`. -/
def ollamaSendOptions (req : ChatRequest) : Option (List (String × OptVal)) :=
  let o1 : Option (List (String × OptVal)) :=
    if 0 < req.temperature then some [("temperature", OptVal.num req.temperature)]
    else none
  if 0 < req.maxTokens then
    some ((o1.getD []) ++ [("num_predict", OptVal.int req.maxTokens)])
  else o1

/-- The `Options` map built by `OllamaProvider.StreamMessage` (the code
duplicates the same two conditional assignments). -/
def ollamaStreamOptions (req : ChatRequest) : Option (List (String × OptVal)) :=
  let o1 : Option (List (String × OptVal)) :=
    if 0 < req.temperature then some [("temperature", OptVal.num req.temperature)]
    else none
  if 0 < req.maxTokens then
    some ((o1.getD []) ++ [("num_predict", OptVal.int req.maxTokens)])
  else o1

/-- Lookup in a possibly-nil Go map. -/
def optLookup (o : Option (List (String × OptVal))) (k : String) : Option OptVal :=
  (o.getD []).lookup k

/- ### Hosted provider model alias tables and `Initialize` -/

/-- `groqModels` alias table from `groq.go`. -/
def groqModels : List (String × String) :=
  [("llama-70b", "llama-3.3-70b-versatile"),
   ("llama-8b", "llama-3.1-8b-instant"),
   ("mixtral", "mixtral-8x7b-32768"),
   ("gemma-7b", "gemma2-9b-it")]

/-- `togetherModels` alias table from `together.go`. -/
def togetherModels : List (String × String) :=
  [("llama-70b", "meta-llama/Llama-3.3-70B-Instruct-Turbo"),
   ("llama-70b-free", "meta-llama/Llama-3.3-70B-Instruct-Turbo-Free"),
   ("deepseek", "deepseek-ai/DeepSeek-R1-Distill-Llama-70B"),
   ("qwen-72b", "Qwen/Qwen2.5-72B-Instruct-Turbo")]

/-- `sambaModels` alias table from `samba.go`. -/
def sambaModels : List (String × String) :=
  [("llama-70b", "Meta-Llama-3.3-70B-Instruct"),
   ("llama-8b", "Meta-Llama-3.1-8B-Instruct"),
   ("qwen-72b", "Qwen2.5-72B-Instruct")]

/-- `geminiModels` alias table from `gemini.go`. -/
def geminiModels : List (String × String) :=
  [("flash", "gemini-2.0-flash-exp"),
   ("flash-lite", "gemini-2.0-flash-lite"),
   ("pro", "gemini-2.5-pro-exp-03-25")]

/-- Shared shape of the hosted providers' `Initialize`: with a nonempty
`cfg.Model` the alias table is consulted, an unknown name passes through
literally; with an empty `cfg.Model` the current model is kept; the
return value is always `nil`. Result: (new model, returned error). -/
def hostedInitModel (table : List (String × String)) (cur cfgModel : String) :
    String × Option GoErr :=
  if cfgModel ≠ "" then
    match table.lookup cfgModel with
    | some full => (full, none)
    | none => (cfgModel, none)
  else (cur, none)

/-- `GroqProvider.Initialize` restricted to its model-selection state. -/
def groqInitModel (cur cfgModel : String) : String × Option GoErr :=
  hostedInitModel groqModels cur cfgModel

/-- `TogetherProvider.Initialize` restricted to its model-selection state. -/
def togetherInitModel (cur cfgModel : String) : String × Option GoErr :=
  hostedInitModel togetherModels cur cfgModel

/-- `SambaProvider.Initialize` restricted to its model-selection state. -/
def sambaInitModel (cur cfgModel : String) : String × Option GoErr :=
  hostedInitModel sambaModels cur cfgModel

/-- `GeminiProvider.Initialize` restricted to its model-selection state
(the generative-model handle refresh does not affect the chosen name or
the nil return). -/
def geminiInitModel (cur cfgModel : String) : String × Option GoErr :=
  hostedInitModel geminiModels cur cfgModel

/- ### `registry` package -/

/-- A constructed provider as the registry sees it: its stable name, the
cached availability flag, and an instance identity standing for the Go
pointer. -/
structure Provider where
  name : String
  isAvail : Bool
  instId : Nat
deriving DecidableEq, Repr

/-- `providers.Metadata`. -/
structure PMetadata where
  displayName : String
  description : String
  requiresAPI : Bool
  defaultURL : String
  envVarKey : String
  envVarModel : String
  icon : String
deriving DecidableEq, Repr

/-- `registry.Registry`: both Go maps as association lists with unique
keys (`Register` enforces uniqueness). -/
structure Registry where
  providers : List (String × Provider)
  metadata : List (String × PMetadata)
deriving DecidableEq, Repr

/-- `Registry.Register`: fails (and mutates nothing) when the name is
taken, otherwise stores provider and metadata under the name. -/
def registryRegister (r : Registry) (p : Provider) (m : PMetadata) :
    Except GoErr Unit × Registry :=
  let name := p.name
  if (r.providers.lookup name).isSome then
    (Except.error ("provider " ++ name ++ " already registered"), r)
  else
    (Except.ok (),
     { providers := r.providers ++ [(name, p)],
       metadata := r.metadata ++ [(name, m)] })

/-- `Registry.Get`: a read-only lookup; the registry is returned so the
absence of mutation is part of the statement. -/
def registryGet (r : Registry) (name : String) :
    Except GoErr Provider × Registry :=
  match r.providers.lookup name with
  | some p => (Except.ok p, r)
  | none => (Except.error ("provider " ++ name ++ " not found"), r)

/-- `Registry.List`: collect all names and sort them
(`sort.Strings`). -/
def registryList (r : Registry) : List String :=
  (r.providers.map Prod.fst).insertionSort (· ≤ ·)

/-- `Registry.ListAvailable`: names whose provider reports
`IsAvailable()`, sorted. -/
def registryListAvailable (r : Registry) : List String :=
  ((r.providers.filter (fun kv => kv.2.isAvail)).map Prod.fst).insertionSort (· ≤ ·)

/- ### `chat` package: session orchestration -/

/-- Result of one `Session.processMessage` call: the conversation
afterwards, the contents handed to the output sink (one `fmt.Print` per
received content chunk, in order), and the returned error. -/
structure ProcessResult where
  messages : List Message
  printed : List Str
  err : Option GoErr
deriving DecidableEq, Repr

/-- The `for chunk := range streamChan` loop of `processMessage`:
consumes delivered chunks until the first chunk carrying an error (which
aborts with `stream error: ...`) or until the channel closes; returns
the accumulated full response, the printed contents, and the error. -/
def pmLoop : List StreamChunk → Str × List Str × Option GoErr
  | [] => ([], [], none)
  | ch :: rest =>
    match ch.error with
    | some e => ([], [], some ("stream error: " ++ e))
    | none =>
      let r := pmLoop rest
      (ch.content ++ r.1, ch.content :: r.2.1, r.2.2)

/-- `Session.processMessage`: appends the user message, streams, and
appends the assistant message only when the whole stream succeeded.
`t1`/`t2` are the two `time.Now()` instants; `chunks` is the sequence
the provider's channel delivered. -/
def processMessage (msgs : List Message) (input : Str) (t1 t2 : GoTime)
    (chunks : List StreamChunk) : ProcessResult :=
  let userMsg : Message := { role := .user, content := input, timestamp := t1 }
  let msgs1 := msgs ++ [userMsg]
  let r := pmLoop chunks
  match r.2.2 with
  | some e => { messages := msgs1, printed := r.2.1, err := some e }
  | none =>
    { messages :=
        msgs1 ++ [{ role := .assistant, content := r.1, timestamp := t2 }],
      printed := r.2.1, err := none }

/-- Whether `Session.handleCommand` reports that the session should
exit: only `/exit` and `/quit` (case-insensitively) do. -/
def handleCommandExits (cmd : Str) : Bool :=
  lowerGo cmd == str "/exit" || lowerGo cmd == str "/quit"

/-- One non-command turn of `Session.Start`'s loop: `processMessage` is
called and an error from it is printed, never breaking the loop, so the
turn always reports `exits = false`. -/
def sessionPromptTurn (msgs : List Message) (input : Str) (t1 t2 : GoTime)
    (chunks : List StreamChunk) : ProcessResult × Bool :=
  (processMessage msgs input t1 t2 chunks, false)

/- ### `history` package: conversations and exports -/

/-- `history.Conversation`. -/
structure Conversation where
  id : String
  provider : Str
  model : Str
  messages : List Message
  startTime : GoTime
  endTime : GoTime
deriving DecidableEq, Repr

/-- Role label used by `exportMarkdown`. -/
def roleLabelMd : Role → Str
  | .assistant => str "Assistant"
  | .system => str "System"
  | .user => str "User"

/-- Role label used by `exportText`. -/
def roleLabelText : Role → Str
  | .assistant => str "Assistant"
  | .system => str "System"
  | .user => str "You"

/-- Message section of `Manager.exportMarkdown`: per message a `## Role`
heading, the content verbatim, and a blank line. -/
def mdMessageSection : List Message → Str
  | [] => []
  | m :: ms =>
    str "## " ++ roleLabelMd m.role ++ str "\n\n" ++ m.content ++ str "\n\n" ++
      mdMessageSection ms

/-- `Manager.exportMarkdown`; `fmtDate` renders `StartTime` under
`"2006-01-02 15:04:05"` and `fmtDur` the rounded duration (both live in
Go's time package, outside this repository). -/
def exportMarkdown (fmtDate : GoTime → Str) (fmtDur : GoTime → GoTime → Str)
    (conv : Conversation) : Str :=
  str "# Conversation with " ++ conv.provider ++ str "\n\n" ++
    str "**Model:** " ++ conv.model ++ str "\n" ++
    str "**Date:** " ++ fmtDate conv.startTime ++ str "\n" ++
    str "**Duration:** " ++ fmtDur conv.startTime conv.endTime ++ str "\n\n" ++
    str "---\n\n" ++
    mdMessageSection conv.messages

/-- Message section of `Manager.exportText`: per message a
`[clock] Role:` line, the content verbatim, and a blank line. -/
def textMessageSection (fmtClock : GoTime → Str) : List Message → Str
  | [] => []
  | m :: ms =>
    str "[" ++ fmtClock m.timestamp ++ str "] " ++ roleLabelText m.role ++
      str ":\n" ++ m.content ++ str "\n\n" ++ textMessageSection fmtClock ms

/-- `Manager.exportText`; `fmtDate`/`fmtClock` are the Go time
renderers. -/
def exportText (fmtDate fmtClock : GoTime → Str) (conv : Conversation) : Str :=
  str "Conversation with " ++ conv.provider ++ str " (" ++ conv.model ++
    str ")\n" ++ str "Date: " ++ fmtDate conv.startTime ++ str "\n" ++
    (List.replicate 60 '=') ++ str "\n\n" ++
    textMessageSection fmtClock conv.messages

/-- The given texts occur as substrings of `s`, pairwise disjoint and in
the given order. -/
def appearInOrder : List Str → Str → Prop
  | [], _ => True
  | c :: cs, s => ∃ pre rest, s = pre ++ c ++ rest ∧ appearInOrder cs rest

/- ### `chat` package: shell mode output formatting -/

/-- `ShellMode.FormatOutput`: dispatch on the configured output
format. The `json` arm escapes only double quotes and newlines and wraps
the result in a one-field object literal. -/
def shellFormatOutput (outputFormat : String) (content : Str) : Str :=
  match outputFormat with
  | "json" =>
    let escaped := replaceChar '"' (str "\\\"") content
    let escaped2 := replaceChar '\n' (str "\\n") escaped
    str "\x7b\"response\": \"" ++ escaped2 ++ str "\"\x7d"
  | "markdown" => str "# Response\n\n" ++ content
  | "raw" => content
  | _ => content

/- ### A JSON reader for the round-trip claim

A minimal JSON string-literal reader, written from RFC 8259 (this is the
spec side of the round-trip claim, not part of the repository): inside a
string literal a backslash must start one of the simple escapes, raw
control characters below U+0020 are illegal, and the literal ends at the
first unescaped quote. `\u` escapes are rejected rather than decoded;
the escaper under test never emits them. -/

/-- Decode one JSON simple escape character. -/
def jsonEscDecode (e : Char) : Option Char :=
  if e = '"' then some '"'
  else if e = '\\' then some '\\'
  else if e = '/' then some '/'
  else if e = 'n' then some '\n'
  else if e = 't' then some '\t'
  else if e = 'r' then some '\r'
  else if e = 'b' then some '\x08'
  else if e = 'f' then some '\x0c'
  else none

mutual

/-- Read a JSON string body up to and including the closing quote;
returns the decoded text and the remaining input. -/
def jsonStringBody : Str → Option (Str × Str)
  | [] => none
  | c :: cs =>
    if c = '"' then some ([], cs)
    else if c = '\\' then jsonEscStep cs
    else if c.val < 0x20 then none
    else
      match jsonStringBody cs with
      | none => none
      | some r => some (c :: r.1, r.2)

/-- Read the remainder of a JSON string body after a backslash: one
simple escape character, then the rest of the body. -/
def jsonEscStep : Str → Option (Str × Str)
  | [] => none
  | e :: cs2 =>
    match jsonEscDecode e with
    | none => none
    | some d =>
      match jsonStringBody cs2 with
      | none => none
      | some r => some (d :: r.1, r.2)

end

/-- Strip an expected literal prefix. -/
def stripLit : Str → Str → Option Str
  | [], s => some s
  | _ :: _, [] => none
  | p :: ps, c :: cs => if c = p then stripLit ps cs else none

/-- Parse exactly the shape `FormatOutput` claims to emit: an object
with the single field `response`; returns the decoded field value. -/
def jsonParseResponseField (s : Str) : Option Str :=
  match stripLit (str "\x7b\"response\": \"") s with
  | none => none
  | some rest =>
    match jsonStringBody rest with
    | none => none
    | some r => if r.2 = str "\x7d" then some r.1 else none

/- ### `assessment` package: the prompt analyzer

Embedding of the 9-criterion analyzer (the current version of
`analyzer.go`; the file also carries a superseded 8-criterion draft of
the same package above it). -/

/-- `assessment.Criterion`. -/
structure Criterion where
  name : String
  score : Nat
  maxScore : Nat
  status : String
  description : String
  suggestions : List String
deriving DecidableEq, Repr

/-- `assessment.Assessment`. -/
structure Assessment where
  criteria : List Criterion
  overallScore : Nat
  overallRating : String
  totalIssues : Nat
  recommendations : List String
deriving DecidableEq, Repr

/-- How many of the given ASCII markers occur in `s`. -/
def markerCount (s : Str) (markers : List Str) : Nat :=
  (markers.filter (fun m => strContains s m)).length

/-- Whether any of the given ASCII markers occurs in `s`. -/
def markerAny (s : Str) (markers : List Str) : Bool :=
  markers.any (fun m => strContains s m)

/-- `Analyzer.checkClarity`. -/
def checkClarity (prompt : Str) : Criterion :=
  let length := utf8Len prompt
  let wc := wordCount prompt
  let hasPunctuation := strContainsAny prompt (str ".?!")
  let hasUndefinedQuotes :=
    2 ≤ countChar prompt '"' || 2 ≤ countChar prompt '\''
  if length < 10 then
    { name := "Clarity", score := 1, maxScore := 10, status := "Poor",
      description := "Prompt is too short to be clear",
      suggestions := ["Expand your prompt with more details"] }
  else if length < 30 || wc < 5 then
    { name := "Clarity", score := 3, maxScore := 10, status := "Poor",
      description := "Prompt is vague and needs more detail",
      suggestions := ["Add specific details about what you want"] }
  else if !hasPunctuation && wc < 15 then
    { name := "Clarity", score := 5, maxScore := 10, status := "Fair",
      description := "Prompt could be clearer with better structure",
      suggestions := ["Use proper punctuation and complete sentences"] }
  else if hasUndefinedQuotes then
    { name := "Clarity", score := 6, maxScore := 10, status := "Good",
      description := "Clear but has undefined terms in quotes",
      suggestions := ["Define terms in quotes or remove ambiguous references"] }
  else if wc < 20 then
    { name := "Clarity", score := 7, maxScore := 10, status := "Good",
      description := "Prompt is clear but could be more detailed",
      suggestions := [] }
  else if wc < 40 then
    { name := "Clarity", score := 8, maxScore := 10, status := "Very Good",
      description := "Clear and well-articulated prompt", suggestions := [] }
  else
    { name := "Clarity", score := 10, maxScore := 10, status := "Excellent",
      description := "Exceptionally clear with unambiguous intent",
      suggestions := [] }

/-- Purpose markers of `checkRelevance`. -/
def purposeMarkers : List Str :=
  [str "so that", str "in order to", str "because", str "to help",
   str "my goal", str "i need", str "i want to", str "the purpose",
   str "this will", str "for my", str "i'm trying to", str "i'm working on",
   str "for the purpose of"]

/-- Outcome markers of `checkRelevance`. -/
def outcomeMarkers : List Str :=
  [str "deliverable", str "output", str "result", str "decision",
   str "action", str "plan", str "strategy", str "solution",
   str "answer to", str "help me decide", str "determine"]

/-- Application markers of `checkRelevance`. -/
def applicationMarkers : List Str :=
  [str "project", str "task", str "work", str "assignment", str "problem",
   str "use case", str "scenario", str "situation", str "implement",
   str "apply", str "build"]

/-- `Analyzer.checkRelevance`. -/
def checkRelevance (prompt : Str) : Criterion :=
  let lp := lowerGo prompt
  let purposeCount := markerCount lp purposeMarkers
  let outcomeCount := markerCount lp outcomeMarkers
  let applicationCount := markerCount lp applicationMarkers
  let total := purposeCount + outcomeCount + applicationCount
  if total = 0 then
    { name := "Relevance", score := 3, maxScore := 10, status := "Poor",
      description := "No clear goal or practical outcome specified",
      suggestions :=
        ["Add 'so that...' or explain why you need this information"] }
  else if 0 < purposeCount && total = 1 then
    { name := "Relevance", score := 6, maxScore := 10, status := "Good",
      description := "Purpose mentioned but outcome unclear",
      suggestions := ["Link to a specific decision or deliverable"] }
  else if 0 < outcomeCount && total ≤ 2 then
    { name := "Relevance", score := 7, maxScore := 10, status := "Good",
      description := "Practical outcome identified", suggestions := [] }
  else if total = 3 then
    { name := "Relevance", score := 8, maxScore := 10, status := "Very Good",
      description := "Clear goal with practical application",
      suggestions := [] }
  else if 4 ≤ total then
    { name := "Relevance", score := 10, maxScore := 10, status := "Excellent",
      description :=
        "Explicitly linked to decision, deliverable, or actionable outcome",
      suggestions := [] }
  else
    { name := "Relevance", score := 5, maxScore := 10, status := "Fair",
      description := "Some relevance but goal not explicit",
      suggestions := ["Clarify the practical goal or outcome you're seeking"] }

/-- Action verbs of `checkSpecificity`. -/
def actionVerbs : List Str :=
  [str "explain", str "write", str "create", str "analyze", str "describe",
   str "compare", str "list", str "summarize", str "generate",
   str "translate", str "build", str "design", str "implement"]

/-- Specificity markers of `checkSpecificity`. -/
def specificityMarkers : List Str :=
  [str "specific", str "detailed", str "particular", str "exactly",
   str "precisely", str "how many", str "which", str "what type"]

/-- `Analyzer.checkSpecificity`. -/
def checkSpecificity (prompt : Str) : Criterion :=
  let lp := lowerGo prompt
  let hasActionVerb := markerAny lp actionVerbs
  let hasSpecificityMarker := markerAny lp specificityMarkers
  let wc := wordCount prompt
  if !hasActionVerb && wc < 10 then
    { name := "Specificity", score := 1, maxScore := 10, status := "Poor",
      description := "Prompt lacks clear direction or specific task",
      suggestions :=
        ["Start with an action verb (e.g., 'explain', 'create', 'analyze')"] }
  else if !hasActionVerb then
    { name := "Specificity", score := 3, maxScore := 10, status := "Poor",
      description := "Prompt needs a clearer task or objective",
      suggestions := ["Specify exactly what you want (e.g., 'explain how X works')"] }
  else if !hasSpecificityMarker && wc < 20 then
    { name := "Specificity", score := 5, maxScore := 10, status := "Fair",
      description := "Prompt has a task but could be more specific",
      suggestions := ["Add details about scope, depth, or focus"] }
  else if !hasSpecificityMarker && wc < 40 then
    { name := "Specificity", score := 7, maxScore := 10, status := "Good",
      description := "Clear task but lacks precise details",
      suggestions := ["Add specific parameters or success criteria"] }
  else if hasSpecificityMarker && wc < 30 then
    { name := "Specificity", score := 8, maxScore := 10, status := "Very Good",
      description := "Specific prompt with clear direction",
      suggestions := [] }
  else
    { name := "Specificity", score := 10, maxScore := 10,
      status := "Excellent",
      description := "Highly specific and well-defined with clear parameters",
      suggestions := [] }

/-- Context markers of `checkContext`. -/
def contextMarkers : List Str :=
  [str "because", str "since", str "given", str "considering", str "context",
   str "background", str "for", str "about", str "in order to",
   str "so that", str "my goal", str "i need", str "i want"]

/-- `Analyzer.checkContext`. -/
def checkContext (prompt : Str) : Criterion :=
  let lp := lowerGo prompt
  let cc := markerCount lp contextMarkers
  let wc := wordCount prompt
  if cc = 0 && wc < 15 then
    { name := "Context", score := 1, maxScore := 10, status := "Poor",
      description := "No context provided",
      suggestions := ["Add background information or context"] }
  else if cc = 0 && wc < 30 then
    { name := "Context", score := 3, maxScore := 10, status := "Poor",
      description := "Minimal context provided",
      suggestions := ["Explain why you need this or provide relevant background"] }
  else if cc = 1 then
    { name := "Context", score := 5, maxScore := 10, status := "Fair",
      description := "Some context provided",
      suggestions := ["Add more background details for better results"] }
  else if cc = 2 then
    { name := "Context", score := 7, maxScore := 10, status := "Good",
      description := "Good context provided", suggestions := [] }
  else if cc = 3 then
    { name := "Context", score := 8, maxScore := 10, status := "Very Good",
      description := "Rich context with good background", suggestions := [] }
  else
    { name := "Context", score := 10, maxScore := 10, status := "Excellent",
      description := "Comprehensive context with clear purpose and background",
      suggestions := [] }

/-- `Analyzer.checkStructure`. -/
def checkStructure (prompt : Str) : Criterion :=
  let hasPunctuation := strContainsAny prompt (str ".?!,;:")
  let hasParagraphs := strContains prompt (str "\n\n")
  let hasList := strContains prompt (str "1.") || strContains prompt (str "2.")
    || strContains prompt (str "-") || strContains prompt (str "*")
  let hasNumbering :=
    strContains prompt (str "1)") || strContains prompt (str "2)")
  let hasSections := strContains prompt (str ":") && hasPunctuation
  let wc := wordCount prompt
  if wc < 5 then
    { name := "Structure", score := 1, maxScore := 10, status := "Poor",
      description := "Prompt too short to have meaningful structure",
      suggestions := ["Expand your prompt with multiple sentences"] }
  else
    let ss := (if hasPunctuation then 1 else 0) +
      (if hasParagraphs then 2 else 0) +
      (if hasList || hasNumbering then 2 else 0) +
      (if hasSections then 1 else 0)
    if !hasPunctuation && 10 < wc then
      { name := "Structure", score := 2, maxScore := 10, status := "Poor",
        description := "Prompt lacks proper structure and punctuation",
        suggestions := ["Use punctuation to separate ideas"] }
    else if ss ≤ 1 && 20 < wc then
      { name := "Structure", score := 4, maxScore := 10, status := "Fair",
        description := "Basic structure but could be improved",
        suggestions := ["Break into paragraphs or use lists for clarity"] }
    else if ss ≤ 1 then
      { name := "Structure", score := 5, maxScore := 10, status := "Fair",
        description := "Adequate structure for simple prompt",
        suggestions := [] }
    else if ss = 2 then
      { name := "Structure", score := 6, maxScore := 10, status := "Good",
        description := "Good structure with clear organization",
        suggestions := [] }
    else if ss = 3 then
      { name := "Structure", score := 7, maxScore := 10, status := "Good",
        description := "Well-structured with multiple elements",
        suggestions := [] }
    else if ss = 4 then
      { name := "Structure", score := 8, maxScore := 10, status := "Very Good",
        description := "Very well-structured prompt", suggestions := [] }
    else
      { name := "Structure", score := 10, maxScore := 10,
        status := "Excellent",
        description :=
          "Excellently structured with clear organization and sections",
        suggestions := [] }

/-- Constraint markers of `checkConstraints`. -/
def constraintMarkers : List Str :=
  [str "limit", str "maximum", str "minimum", str "should not", str "must",
   str "only", str "within", str "up to", str "at least", str "exactly",
   str "no more than"]

/-- `Analyzer.checkConstraints`. -/
def checkConstraints (prompt : Str) : Criterion :=
  let lp := lowerGo prompt
  let cc := markerCount lp constraintMarkers
  if cc = 0 then
    { name := "Constraints", score := 2, maxScore := 10, status := "Poor",
      description := "No constraints specified",
      suggestions := ["Consider adding constraints (e.g., length, format, scope)"] }
  else if cc = 1 then
    { name := "Constraints", score := 5, maxScore := 10, status := "Fair",
      description := "Minimal constraints provided",
      suggestions := ["Add more specific constraints for better control"] }
  else if cc = 2 then
    { name := "Constraints", score := 7, maxScore := 10, status := "Good",
      description := "Some constraints specified", suggestions := [] }
  else if cc = 3 then
    { name := "Constraints", score := 8, maxScore := 10, status := "Very Good",
      description := "Good constraints specified", suggestions := [] }
  else
    { name := "Constraints", score := 10, maxScore := 10,
      status := "Excellent",
      description := "Well-defined constraints with clear boundaries",
      suggestions := [] }

/-- Format markers of `checkOutputFormat`. -/
def formatMarkers : List Str :=
  [str "format", str "json", str "markdown", str "list", str "table",
   str "bullet", str "numbered", str "paragraph", str "code", str "style",
   str "output as", str "return as", str "provide as", str "structure as",
   str "organize as", str "csv", str "xml", str "html"]

/-- `Analyzer.checkOutputFormat`. -/
def checkOutputFormat (prompt : Str) : Criterion :=
  let lp := lowerGo prompt
  let formatCount := markerCount lp formatMarkers
  let hasFormat := markerAny lp formatMarkers
  if !hasFormat then
    { name := "Output Format", score := 2, maxScore := 10, status := "Fair",
      description := "Output format not specified",
      suggestions :=
        ["Specify desired format (e.g., 'as a list', 'in JSON format', 'as a table')"] }
  else if formatCount = 1 && strContains lp (str "format") then
    { name := "Output Format", score := 6, maxScore := 10, status := "Good",
      description := "Format mentioned but not detailed",
      suggestions := ["Be more specific about the exact format structure"] }
  else if formatCount = 1 then
    { name := "Output Format", score := 7, maxScore := 10, status := "Good",
      description := "Output format specified", suggestions := [] }
  else if formatCount = 2 then
    { name := "Output Format", score := 9, maxScore := 10,
      status := "Excellent",
      description := "Detailed output format specification",
      suggestions := [] }
  else
    { name := "Output Format", score := 10, maxScore := 10,
      status := "Excellent",
      description := "Comprehensive output format with multiple specifications",
      suggestions := [] }

/-- Role markers of `checkRole`. -/
def roleMarkers : List Str :=
  [str "as a", str "you are", str "act as", str "pretend", str "imagine you",
   str "assume you", str "expert", str "professional", str "specialist",
   str "teacher", str "coach", str "consultant", str "acting as",
   str "role of", str "persona of"]

/-- Expertise terms of `checkRole`. -/
def expertiseTerms : List Str :=
  [str "expert in", str "specialist in", str "professional with",
   str "experience in", str "skilled in"]

/-- `Analyzer.checkRole`. The first loop also tests each matched marker
text itself for `expert`/`professional`/`specialist` to set the
expertise flag. -/
def checkRole (prompt : Str) : Criterion :=
  let lp := lowerGo prompt
  let roleMatched := roleMarkers.filter (fun m => strContains lp m)
  let hasRole := !roleMatched.isEmpty
  let markerExpertise := roleMatched.any (fun m =>
    strContains m (str "expert") || strContains m (str "professional") ||
      strContains m (str "specialist"))
  let termMatched := expertiseTerms.filter (fun t => strContains lp t)
  let hasExpertise := markerExpertise || !termMatched.isEmpty
  let roleCount := roleMatched.length + termMatched.length
  if !hasRole then
    { name := "Role/Persona", score := 2, maxScore := 10, status := "Fair",
      description := "No role or persona defined",
      suggestions :=
        ["Define a role (e.g., 'as an expert in X', 'act as a teacher')"] }
  else if hasRole && !hasExpertise && roleCount = 1 then
    { name := "Role/Persona", score := 6, maxScore := 10, status := "Good",
      description := "Basic role mentioned",
      suggestions := ["Add expertise level or specific domain knowledge"] }
  else if hasRole && hasExpertise && roleCount = 1 then
    { name := "Role/Persona", score := 8, maxScore := 10,
      status := "Very Good",
      description := "Clear expert role defined", suggestions := [] }
  else if roleCount = 2 then
    { name := "Role/Persona", score := 9, maxScore := 10,
      status := "Excellent",
      description := "Well-defined role with expertise", suggestions := [] }
  else
    { name := "Role/Persona", score := 10, maxScore := 10,
      status := "Excellent",
      description := "Comprehensive role definition with detailed expertise",
      suggestions := [] }

/-- Example markers of `checkExamples`. -/
def exampleMarkers : List Str :=
  [str "example", str "such as", str "like", str "for instance", str "e.g.",
   str "i.e.", str "for example"]

/-- `Analyzer.checkExamples`. -/
def checkExamples (prompt : Str) : Criterion :=
  let lp := lowerGo prompt
  let ec := markerCount lp exampleMarkers
  if ec = 0 then
    { name := "Examples", score := 2, maxScore := 10, status := "Poor",
      description := "No examples provided",
      suggestions := ["Include examples to clarify expectations"] }
  else if ec = 1 then
    { name := "Examples", score := 6, maxScore := 10, status := "Good",
      description := "One example provided",
      suggestions := ["Add more examples for clarity"] }
  else if ec = 2 then
    { name := "Examples", score := 8, maxScore := 10, status := "Very Good",
      description := "Multiple examples provided", suggestions := [] }
  else
    { name := "Examples", score := 10, maxScore := 10, status := "Excellent",
      description := "Rich examples for comprehensive clarity",
      suggestions := [] }

/-- `Analyzer.getRating`. -/
def getRating (score : Nat) : String :=
  if 90 ≤ score then "Outstanding"
  else if 75 ≤ score then "Excellent"
  else if 60 ≤ score then "Good"
  else if 40 ≤ score then "Fair"
  else "Poor"

/-- `Analyzer.generateRecommendations`. -/
def generateRecommendations (criteria : List Criterion)
    (overallScore : Nat) : List String :=
  (criteria.filter (fun c => c.score < 4 && !c.suggestions.isEmpty)).flatMap
      (fun c => c.suggestions) ++
    (if overallScore < 60 then
      ["Consider using prompt engineering best practices",
       "Break down complex requests into smaller parts"]
    else [])

/-- The nine criterion checks `Analyzer.Analyze` runs, in order. -/
def analyzeCriteria (prompt : Str) : List Criterion :=
  [checkClarity prompt, checkRelevance prompt, checkSpecificity prompt,
   checkContext prompt, checkStructure prompt, checkConstraints prompt,
   checkOutputFormat prompt, checkRole prompt, checkExamples prompt]

/-- `Analyzer.Analyze`. -/
def analyze (prompt : Str) : Assessment :=
  let cs := analyzeCriteria prompt
  let totalScore := (cs.map (·.score)).sum
  let maxScore := (cs.map (·.maxScore)).sum
  let totalIssues := (cs.filter (fun c => c.score < 4)).length
  let overall := totalScore * 100 / maxScore
  { criteria := cs, overallScore := overall,
    overallRating := getRating overall, totalIssues := totalIssues,
    recommendations := generateRecommendations cs overall }

/- ### Helper lemmas -/

/-- Done-chunk counting distributes over append. -/
theorem doneCount_append (a b : List StreamChunk) :
    doneCount (a ++ b) = doneCount a + doneCount b := by
  simp [doneCount, List.filter_append]

/-- A chunk list mapped from events contributes one done chunk per event
whose flag is set. -/
theorem doneCount_map_events (evs : List OllamaEvent) :
    doneCount (evs.map (fun ev =>
      ({ content := ev.1, done := ev.2, error := none } : StreamChunk))) =
      (evs.filter (fun ev => ev.2)).length := by
  induction evs with
  | nil => rfl
  | cons ev rest ih =>
    by_cases h : ev.2 <;> simp [doneCount, List.filter_cons, h] at ih ⊢ <;>
      simpa [doneCount] using ih

/- ### C4: registry get/duplicate-register behaviour -/

/-- C4: `Registry.Get` neither mutates the registry nor varies between
calls, and `Registry.Register` under an already-registered name fails
with the duplicate-name error leaving both maps untouched. -/
theorem c4_registry_get_and_duplicate_register (reg : Registry)
    (name : String) (p : Provider) (m : PMetadata) (p0 : Provider)
    (h : reg.providers.lookup p.name = some p0) :
    registryRegister reg p m =
      (Except.error ("provider " ++ p.name ++ " already registered"), reg) ∧
    (registryGet reg name).2 = reg ∧
    (registryGet ((registryGet reg name).2) name).1 = (registryGet reg name).1 := by
  refine ⟨?_, ?_, ?_⟩
  · simp [registryRegister, h]
  · cases h' : reg.providers.lookup name <;> simp [registryGet, h']
  · cases h' : reg.providers.lookup name <;> simp [registryGet, h']

/-- Witness for C4 at a concrete one-entry registry. -/
theorem c4_witness :
    registryRegister
        { providers := [("groq", ⟨"groq", true, 1⟩)], metadata := [] }
        ⟨"groq", true, 2⟩
        ⟨"Groq", "fast", true, "u", "k", "m", "i"⟩ =
      (Except.error "provider groq already registered",
       { providers := [("groq", ⟨"groq", true, 1⟩)], metadata := [] }) := by
  have h := c4_registry_get_and_duplicate_register
    { providers := [("groq", ⟨"groq", true, 1⟩)], metadata := [] }
    "groq" ⟨"groq", true, 2⟩ ⟨"Groq", "fast", true, "u", "k", "m", "i"⟩
    ⟨"groq", true, 1⟩ (by decide)
  simpa using h.1

/- ### C7: sorted registry listings -/

/-- C7: `List` returns every registered name in ascending order, and
`ListAvailable` returns, in ascending order, exactly the registered
names whose provider reports availability. -/
theorem c7_registry_list_sorted (reg : Registry) :
    (registryList reg).Perm (reg.providers.map Prod.fst) ∧
    List.Sorted (· ≤ ·) (registryList reg) ∧
    (registryListAvailable reg).Perm
      ((reg.providers.filter (fun kv => kv.2.isAvail)).map Prod.fst) ∧
    List.Sorted (· ≤ ·) (registryListAvailable reg) ∧
    (∀ n, n ∈ registryListAvailable reg ↔
      ∃ p, (n, p) ∈ reg.providers ∧ p.isAvail = true) := by
  refine ⟨List.perm_insertionSort _ _, List.sorted_insertionSort _ _,
    List.perm_insertionSort _ _, List.sorted_insertionSort _ _, ?_⟩
  intro n
  simp only [registryListAvailable]
  rw [(List.perm_insertionSort (· ≤ ·) _).mem_iff]
  constructor
  · intro hn
    rcases List.mem_map.1 hn with ⟨⟨k, p⟩, hkp, hk⟩
    rcases List.mem_filter.1 hkp with ⟨hmem, havail⟩
    exact ⟨p, by rw [← hk]; simpa using hmem, by simpa using havail⟩
  · rintro ⟨p, hmem, havail⟩
    exact List.mem_map.2 ⟨(n, p), List.mem_filter.2 ⟨hmem, by simpa using havail⟩, rfl⟩

/- ### C6: hosted-provider model alias selection -/

/-- Generic behaviour of the hosted `Initialize` model selection. -/
theorem hostedInitModel_spec (table : List (String × String))
    (cur m : String) :
    (hostedInitModel table cur m).2 = none ∧
    (hostedInitModel table cur m).1 =
      (if m = "" then cur else (table.lookup m).getD m) := by
  by_cases hm : m = "" <;>
    · cases h : table.lookup m <;> simp [hostedInitModel, hm, h]

/-- C6: every hosted provider's `Initialize` maps a known alias to the
vendor identifier, passes unknown nonempty names through literally,
keeps the current model on an empty name, and never returns an error. -/
theorem c6_hosted_model_alias_selection (cur m : String) :
    ((groqInitModel cur m).2 = none ∧
      (groqInitModel cur m).1 =
        (if m = "" then cur else (groqModels.lookup m).getD m)) ∧
    ((togetherInitModel cur m).2 = none ∧
      (togetherInitModel cur m).1 =
        (if m = "" then cur else (togetherModels.lookup m).getD m)) ∧
    ((sambaInitModel cur m).2 = none ∧
      (sambaInitModel cur m).1 =
        (if m = "" then cur else (sambaModels.lookup m).getD m)) ∧
    ((geminiInitModel cur m).2 = none ∧
      (geminiInitModel cur m).1 =
        (if m = "" then cur else (geminiModels.lookup m).getD m)) ∧
    (groqInitModel cur "llama-70b").1 = "llama-3.3-70b-versatile" ∧
    (geminiInitModel cur "flash").1 = "gemini-2.0-flash-exp" ∧
    (groqInitModel cur "custom/unlisted-model").1 = "custom/unlisted-model" := by
  refine ⟨hostedInitModel_spec _ _ _, hostedInitModel_spec _ _ _,
    hostedInitModel_spec _ _ _, hostedInitModel_spec _ _ _, ?_, ?_, ?_⟩ <;> rfl

/- ### C5: temperature and max-token forwarding -/

/-- C5: the hosted providers place the request's temperature and token
budget into the backend request unconditionally (both `SendMessage` and
`StreamMessage`), while the Ollama provider materialises the
`temperature` and `num_predict` options only for strictly positive
values. -/
theorem c5_parameter_forwarding (model : String) (req : ChatRequest) :
    (groqSendRequest model req).temperature = req.temperature ∧
    (groqSendRequest model req).maxTokens = req.maxTokens ∧
    (groqStreamRequest model req).temperature = req.temperature ∧
    (groqStreamRequest model req).maxTokens = req.maxTokens ∧
    (togetherSendRequest model req).temperature = req.temperature ∧
    (togetherSendRequest model req).maxTokens = req.maxTokens ∧
    (togetherStreamRequest model req).temperature = req.temperature ∧
    (togetherStreamRequest model req).maxTokens = req.maxTokens ∧
    (sambaSendRequest model req).temperature = req.temperature ∧
    (sambaSendRequest model req).maxTokens = req.maxTokens ∧
    (sambaStreamRequest model req).temperature = req.temperature ∧
    (sambaStreamRequest model req).maxTokens = req.maxTokens ∧
    optLookup (ollamaSendOptions req) "temperature" =
      (if 0 < req.temperature then some (OptVal.num req.temperature) else none) ∧
    optLookup (ollamaSendOptions req) "num_predict" =
      (if 0 < req.maxTokens then some (OptVal.int req.maxTokens) else none) ∧
    optLookup (ollamaStreamOptions req) "temperature" =
      (if 0 < req.temperature then some (OptVal.num req.temperature) else none) ∧
    optLookup (ollamaStreamOptions req) "num_predict" =
      (if 0 < req.maxTokens then some (OptVal.int req.maxTokens) else none) := by
  refine ⟨rfl, rfl, rfl, rfl, rfl, rfl, rfl, rfl, rfl, rfl, rfl, rfl,
    ?_, ?_, ?_, ?_⟩ <;>
    · by_cases ht : 0 < req.temperature <;> by_cases hk : 0 < req.maxTokens <;>
        simp [ollamaSendOptions, ollamaStreamOptions, optLookup, ht, hk,
          List.lookup]

/- ### C1: exactly one terminal chunk, delivered last -/

/-- The OpenAI-compatible stream loop never returns an empty chunk
sequence. -/
theorem openAIProducer_ne_nil (rs : List OpenAIStreamResp) (e : GoErr) :
    openAIProducer rs e ≠ [] := by
  induction rs with
  | nil => by_cases h : errIsEOF e <;> simp [openAIProducer, h]
  | cons choices rest ih =>
    cases choices <;> simp [openAIProducer, ih]

/-- The OpenAI-compatible stream loop emits exactly one done chunk, at
the end. -/
theorem openAIProducer_terminal (rs : List OpenAIStreamResp) (e : GoErr) :
    doneCount (openAIProducer rs e) = 1 ∧
    (openAIProducer rs e).getLast?.map (·.done) = some true := by
  induction rs with
  | nil =>
    by_cases h : errIsEOF e <;> simp [openAIProducer, h, doneCount]
  | cons choices rest ih =>
    have hne := openAIProducer_ne_nil rest e
    cases choices with
    | nil => simpa [openAIProducer] using ih
    | cons c cr =>
      refine ⟨?_, ?_⟩
      · simpa [openAIProducer, doneCount_append, doneCount] using ih.1
      · rw [show openAIProducer (( c :: cr) :: rest) e =
          [{ content := c, done := false, error := none }] ++
            openAIProducer rest e from rfl]
        rw [List.getLast?_append_of_ne_nil _ hne]
        exact ih.2

/-- The Gemini stream loop never returns an empty chunk sequence. -/
theorem geminiProducer_ne_nil (gs : List GeminiStreamResp)
    (ge : Option GoErr) : geminiProducer gs ge ≠ [] := by
  induction gs with
  | nil => cases ge <;> simp [geminiProducer]
  | cons parts rest ih => simp [geminiProducer, ih]

/-- The Gemini stream loop emits exactly one done chunk, at the end. -/
theorem geminiProducer_terminal (gs : List GeminiStreamResp)
    (ge : Option GoErr) :
    doneCount (geminiProducer gs ge) = 1 ∧
    (geminiProducer gs ge).getLast?.map (·.done) = some true := by
  induction gs with
  | nil => cases ge <;> simp [geminiProducer, doneCount]
  | cons parts rest ih =>
    have hne := geminiProducer_ne_nil rest ge
    refine ⟨?_, ?_⟩
    · have : doneCount (parts.map (fun pt =>
        ({ content := pt, done := false, error := none } : StreamChunk))) = 0 := by
        simp [doneCount, List.filter_map]
      simpa [geminiProducer, doneCount_append, this] using ih.1
    · rw [show geminiProducer (parts :: rest) ge =
        parts.map (fun pt =>
          ({ content := pt, done := false, error := none } : StreamChunk)) ++
          geminiProducer rest ge from rfl]
      rw [List.getLast?_append_of_ne_nil _ hne]
      exact ih.2

/-- C1: every provider's delivered chunk sequence carries exactly one
`done=true` chunk and it is the last chunk before the channel closes
(for Ollama, under the native API's boundary contract on `Done`
flags). -/
theorem c1_stream_exactly_one_terminal_chunk (rs : List OpenAIStreamResp)
    (e : GoErr) (gs : List GeminiStreamResp) (ge : Option GoErr)
    (evs : List OllamaEvent) (cerr : Option GoErr)
    (h : OllamaNativeOk evs cerr) :
    (doneCount (openAIProducer rs e) = 1 ∧
      (openAIProducer rs e).getLast?.map (·.done) = some true) ∧
    (doneCount (geminiProducer gs ge) = 1 ∧
      (geminiProducer gs ge).getLast?.map (·.done) = some true) ∧
    (doneCount (ollamaProducer evs cerr) = 1 ∧
      (ollamaProducer evs cerr).getLast?.map (·.done) = some true) := by
  refine ⟨openAIProducer_terminal rs e, geminiProducer_terminal gs ge, ?_⟩
  unfold OllamaNativeOk at h
  cases cerr with
  | some err =>
    have hall : ∀ ev ∈ evs, ev.2 = false := by simpa using h
    have hflt : evs.filter (fun ev => ev.2) = [] :=
      List.filter_eq_nil_iff.2 (by intro ev hev; simpa using hall ev hev)
    have hmap0 : doneCount (evs.map (fun ev =>
        ({ content := ev.1, done := ev.2, error := none } : StreamChunk))) = 0 := by
      rw [doneCount_map_events, hflt]; rfl
    have hshape : ollamaProducer evs (some err) =
        evs.map (fun ev =>
          ({ content := ev.1, done := ev.2, error := none } : StreamChunk)) ++
          [{ content := [], done := true,
             error := some ("ollama streaming error: " ++ err) }] := rfl
    constructor
    · rw [hshape, doneCount_append, hmap0]; rfl
    · rw [hshape, List.getLast?_append_of_ne_nil _ (by simp)]; rfl
  | none =>
    rcases h with ⟨pre, fin, hevs, hfin, hpre⟩
    subst hevs
    have hflt : pre.filter (fun ev => ev.2) = [] :=
      List.filter_eq_nil_iff.2 (by intro ev hev; simpa using hpre ev hev)
    have hmap0 : doneCount (pre.map (fun ev =>
        ({ content := ev.1, done := ev.2, error := none } : StreamChunk))) = 0 := by
      rw [doneCount_map_events, hflt]; rfl
    have hshape : ollamaProducer (pre ++ [fin]) none =
        pre.map (fun ev =>
          ({ content := ev.1, done := ev.2, error := none } : StreamChunk)) ++
          [{ content := fin.1, done := fin.2, error := none }] := by
      simp [ollamaProducer]
    constructor
    · rw [hshape, doneCount_append, hmap0]
      simp [doneCount, hfin]
    · rw [hshape, List.getLast?_append_of_ne_nil _ (by simp)]
      simp [hfin]

/-- Witness for C1 at concrete native streams. -/
theorem c1_witness :
    (doneCount (ollamaProducer [(str "Hi", false), ([], true)] none) = 1 ∧
      (ollamaProducer [(str "Hi", false), ([], true)] none).getLast?.map
        (·.done) = some true) := by
  have h := c1_stream_exactly_one_terminal_chunk [[str "a"]] "EOF" [[str "x"]]
    none [(str "Hi", false), ([], true)] none
    (by exact ⟨[(str "Hi", false)], ([], true), rfl, rfl, by decide⟩)
  exact h.2.2

/- ### C2: guard status of producer channel sends -/

/-- C2: the claim that every producer send is guarded by a `select`
against context cancellation fails for the hosted providers: groq,
together, samba and gemini perform only unguarded sends (so their
producers can block forever after cancellation on a full channel), while
ollama guards every send. -/
theorem c2_producer_send_guard_status :
    ((groqSendOps [] "connection reset").all (·.guarded)) = false ∧
    ((togetherSendOps [] "connection reset").all (·.guarded)) = false ∧
    ((sambaSendOps [] "connection reset").all (·.guarded)) = false ∧
    ((geminiSendOps [] (some "connection reset")).all (·.guarded)) = false ∧
    ((groqSendOps [] "connection reset").any sendCanBlockAfterCancel) = true ∧
    (∀ evs cerr, ((ollamaSendOps evs cerr).all (·.guarded)) = true) := by
  refine ⟨by decide, by decide, by decide, by decide, by decide, ?_⟩
  intro evs cerr
  cases cerr <;> simp [ollamaSendOps, List.all_append] <;>
    (rintro x y (⟨-, rfl⟩ | ⟨-, rfl⟩) <;> rfl)

/- ### C3: a mid-stream error aborts the turn without recording it -/

/-- The stream-consumption loop on an error-free prefix followed by an
error chunk prints exactly the prefix contents and reports the error. -/
theorem pmLoop_error_spec (errCh : StreamChunk) (e : GoErr)
    (herr : errCh.error = some e) :
    ∀ pref : List StreamChunk, (∀ ch ∈ pref, ch.error = none) →
      (pmLoop (pref ++ [errCh])).2.1 = pref.map (·.content) ∧
      (pmLoop (pref ++ [errCh])).2.2 = some ("stream error: " ++ e) := by
  intro pref
  induction pref with
  | nil => intro _; simp [pmLoop, herr]
  | cons ch rest ih =>
    intro hall
    have hch : ch.error = none := hall ch (by simp)
    have ihr := ih (fun c hc => hall c (by simp [hc]))
    simp [pmLoop, hch, ihr.1, ihr.2]

/-- C3: when the provider delivers content chunks followed by a chunk
carrying an error, `processMessage` fails, records only the user
message, has already printed every preceding content fragment, and the
session loop does not exit. -/
theorem c3_midstream_error_turn (msgs : List Message) (input : Str)
    (t1 t2 : GoTime) (pref : List StreamChunk) (errCh : StreamChunk)
    (e : GoErr) (hpref : ∀ ch ∈ pref, ch.error = none)
    (herr : errCh.error = some e) :
    (processMessage msgs input t1 t2 (pref ++ [errCh])).err =
      some ("stream error: " ++ e) ∧
    (processMessage msgs input t1 t2 (pref ++ [errCh])).messages =
      msgs ++ [{ role := .user, content := input, timestamp := t1 }] ∧
    (processMessage msgs input t1 t2 (pref ++ [errCh])).printed =
      pref.map (·.content) ∧
    (sessionPromptTurn msgs input t1 t2 (pref ++ [errCh])).2 = false := by
  have hs := pmLoop_error_spec errCh e herr pref hpref
  refine ⟨?_, ?_, ?_, rfl⟩ <;> simp [processMessage, hs.1, hs.2]

/-- Witness for C3: two content chunks then a terminal error chunk. -/
theorem c3_witness :
    (processMessage [] (str "tell me") 0 1
        [⟨str "Hel", false, none⟩, ⟨str "lo", false, none⟩,
         ⟨[], true, some "boom"⟩]).err = some "stream error: boom" ∧
    (processMessage [] (str "tell me") 0 1
        [⟨str "Hel", false, none⟩, ⟨str "lo", false, none⟩,
         ⟨[], true, some "boom"⟩]).messages =
      [{ role := .user, content := str "tell me", timestamp := 0 }] ∧
    (processMessage [] (str "tell me") 0 1
        [⟨str "Hel", false, none⟩, ⟨str "lo", false, none⟩,
         ⟨[], true, some "boom"⟩]).printed = [str "Hel", str "lo"] := by
  have h := c3_midstream_error_turn [] (str "tell me") 0 1
    [⟨str "Hel", false, none⟩, ⟨str "lo", false, none⟩]
    ⟨[], true, some "boom"⟩ "boom" (by decide) rfl
  exact ⟨h.1, by simpa using h.2.1, by simpa using h.2.2.1⟩

/- ### C8: exports contain every message content, in order -/

/-- Prepending text preserves ordered substring occurrence. -/
theorem appearInOrder_prepend (cs : List Str) (t s : Str)
    (h : appearInOrder cs s) : appearInOrder cs (t ++ s) := by
  cases cs with
  | nil => trivial
  | cons c rest =>
    rcases h with ⟨pre, tail, heq, htail⟩
    exact ⟨t ++ pre, tail, by simp [heq, List.append_assoc], htail⟩

/-- The markdown message section contains all contents in order. -/
theorem mdMessageSection_appears (ms : List Message) :
    appearInOrder (ms.map (·.content)) (mdMessageSection ms) := by
  induction ms with
  | nil => trivial
  | cons m rest ih =>
    refine ⟨str "## " ++ roleLabelMd m.role ++ str "\n\n",
      str "\n\n" ++ mdMessageSection rest, ?_, ?_⟩
    · simp [mdMessageSection, List.append_assoc]
    · exact appearInOrder_prepend _ _ _ ih

/-- The plain-text message section contains all contents in order. -/
theorem textMessageSection_appears (fmtClock : GoTime → Str)
    (ms : List Message) :
    appearInOrder (ms.map (·.content)) (textMessageSection fmtClock ms) := by
  induction ms with
  | nil => trivial
  | cons m rest ih =>
    refine ⟨str "[" ++ fmtClock m.timestamp ++ str "] " ++
      roleLabelText m.role ++ str ":\n",
      str "\n\n" ++ textMessageSection fmtClock rest, ?_, ?_⟩
    · simp [textMessageSection, List.append_assoc]
    · exact appearInOrder_prepend _ _ _ ih

/-- C8: both export formats contain every message's content verbatim, in
conversation order, whatever the (external) time renderers produce. -/
theorem c8_export_preserves_contents_in_order (fmtDate : GoTime → Str)
    (fmtDur : GoTime → GoTime → Str) (fmtClock : GoTime → Str)
    (conv : Conversation) :
    appearInOrder (conv.messages.map (·.content))
      (exportMarkdown fmtDate fmtDur conv) ∧
    appearInOrder (conv.messages.map (·.content))
      (exportText fmtDate fmtClock conv) := by
  constructor
  · unfold exportMarkdown
    repeat apply appearInOrder_prepend
    exact mdMessageSection_appears conv.messages
  · unfold exportText
    repeat apply appearInOrder_prepend
    exact textMessageSection_appears fmtClock conv.messages

/- ### C10: shell-mode output formatting -/

/-- `replaceChar` distributes over append. -/
theorem replaceChar_append (a : Char) (rep x y : Str) :
    replaceChar a rep (x ++ y) = replaceChar a rep x ++ replaceChar a rep y := by
  induction x with
  | nil => rfl
  | cons c cs ih => simp [replaceChar, ih]

/-- The two-pass escaping of `FormatOutput`'s json arm acts
character-wise. -/
theorem jsonEscape_cons (c : Char) (cs : Str) :
    replaceChar '\n' (str "\\n") (replaceChar '"' (str "\\\"") (c :: cs)) =
      (if c = '"' then str "\\\"" else if c = '\n' then str "\\n" else [c]) ++
        replaceChar '\n' (str "\\n") (replaceChar '"' (str "\\\"") cs) := by
  by_cases hq : c = '"'
  · subst hq
    simp [replaceChar, replaceChar_append, str]
  · by_cases hn : c = '\n'
    · subst hn
      simp [replaceChar, replaceChar_append, str]
    · simp [replaceChar, replaceChar_append, hq, hn]

/-- Reading a string body that opens with its closing quote. -/
theorem jsonStringBody_quote (rest : Str) :
    jsonStringBody ('"' :: rest) = some ([], rest) := by
  simp [jsonStringBody]

/-- Reading a string body that opens with a decodable escape. -/
theorem jsonStringBody_esc (e d : Char) (rest r tail : Str)
    (hd : jsonEscDecode e = some d)
    (hres : jsonStringBody rest = some (r, tail)) :
    jsonStringBody ('\\' :: e :: rest) = some (d :: r, tail) := by
  simp [jsonStringBody, jsonEscStep, hd, hres]

/-- Reading a string body that opens with an ordinary character. -/
theorem jsonStringBody_plain (c : Char) (rest r tail : Str) (hq : c ≠ '"')
    (hb : c ≠ '\\') (h32 : ¬ c.val < 32)
    (hres : jsonStringBody rest = some (r, tail)) :
    jsonStringBody (c :: rest) = some (c :: r, tail) := by
  simp [jsonStringBody, hq, hb, h32, hres]

/-- Reading back an escaped text followed by a closing quote recovers
the original text, provided it holds no backslash and no control
character other than the escaped newline. -/
theorem jsonStringBody_escaped (content rest0 : Str)
    (h : ∀ c ∈ content, c ≠ '\\' ∧ (¬ c.val < 32 ∨ c = '\n')) :
    jsonStringBody
        (replaceChar '\n' (str "\\n") (replaceChar '"' (str "\\\"") content) ++
          ('"' :: rest0)) = some (content, rest0) := by
  induction content with
  | nil => simpa [replaceChar] using jsonStringBody_quote rest0
  | cons c cs ih =>
    have hc := h c (by simp)
    have ihr := ih (fun x hx => h x (by simp [hx]))
    rw [jsonEscape_cons, List.append_assoc]
    by_cases hq : c = '"'
    · subst hq
      rw [if_pos rfl]
      exact jsonStringBody_esc '"' '"' _ cs rest0 (by decide) ihr
    · rw [if_neg hq]
      by_cases hn : c = '\n'
      · subst hn
        rw [if_pos rfl]
        exact jsonStringBody_esc 'n' '\n' _ cs rest0 (by decide) ihr
      · rw [if_neg hn]
        have h32 : ¬ c.val < 32 := by
          rcases hc.2 with h' | h'
          · exact h'
          · exact absurd h' hn
        exact jsonStringBody_plain c _ cs rest0 hq hc.1 h32 ihr

/-- Stripping a literal prefix from itself plus a remainder succeeds. -/
theorem stripLit_self (p s : Str) : stripLit p (p ++ s) = some s := by
  induction p with
  | nil => rfl
  | cons c cs ih => simp [stripLit, ih]

/-- Counterexample for C10: the json arm escapes only quotes and
newlines, so a content holding a lone backslash (or a raw tab) does not
survive: the emitted text is not a JSON object whose `response` field
decodes to the content. -/
theorem c10_counterexample :
    ¬ (jsonParseResponseField (shellFormatOutput "json" (str "\\")) =
        some (str "\\")) ∧
    jsonParseResponseField (shellFormatOutput "json" (str "\\")) = none ∧
    jsonParseResponseField (shellFormatOutput "json" (str "\t")) = none := by
  refine ⟨by decide, by decide, by decide⟩

/-- C10 amended: for content free of backslashes and of control
characters other than newline, the json arm emits a JSON object whose
single `response` field decodes back to the content; the raw arm and the
default arm return the content unchanged for every content. -/
theorem c10_amended_roundtrip (content : Str)
    (h : ∀ c ∈ content, c ≠ '\\' ∧ (¬ c.val < 32 ∨ c = '\n')) :
    jsonParseResponseField (shellFormatOutput "json" content) = some content ∧
    (∀ anyContent : Str, shellFormatOutput "raw" anyContent = anyContent) ∧
    (∀ (anyContent : Str) (fmt : String),
      fmt ≠ "json" → fmt ≠ "markdown" → fmt ≠ "raw" →
      shellFormatOutput fmt anyContent = anyContent) := by
  refine ⟨?_, fun _ => rfl, ?_⟩
  · have hbody := jsonStringBody_escaped content (str "\x7d") h
    have hshape : shellFormatOutput "json" content =
        str "\x7b\"response\": \"" ++
          (replaceChar '\n' (str "\\n")
            (replaceChar '"' (str "\\\"") content) ++ ('"' :: str "\x7d")) := by
      simp [shellFormatOutput, str, List.append_assoc]
    rw [hshape]
    unfold jsonParseResponseField
    rw [stripLit_self]
    simp [hbody]
  · intro anyContent fmt h1 h2 h3
    unfold shellFormatOutput
    split <;> first | rfl | contradiction

/-- Witness for C10 amended at a concrete content with quotes and a
newline. -/
theorem c10_witness :
    jsonParseResponseField
        (shellFormatOutput "json" (str "He said \"hi\"\nBye")) =
      some (str "He said \"hi\"\nBye") ∧
    shellFormatOutput "raw" (str "He said \"hi\"\nBye") =
      str "He said \"hi\"\nBye" ∧
    shellFormatOutput "text" (str "He said \"hi\"\nBye") =
      str "He said \"hi\"\nBye" := by
  have h := c10_amended_roundtrip (str "He said \"hi\"\nBye") (by decide)
  exact ⟨h.1, h.2.1 (str "He said \"hi\"\nBye"),
    h.2.2 (str "He said \"hi\"\nBye") "text" (by decide) (by decide) (by decide)⟩

/- ### C9: analyzer criterion count, score bounds and overall score -/

/-- Score bounds of the clarity check. -/
theorem checkClarity_bounds (p : Str) :
    1 ≤ (checkClarity p).score ∧ (checkClarity p).score ≤ 10 ∧
      (checkClarity p).maxScore = 10 := by
  simp only [checkClarity]; split_ifs <;> decide

/-- Score bounds of the relevance check. -/
theorem checkRelevance_bounds (p : Str) :
    1 ≤ (checkRelevance p).score ∧ (checkRelevance p).score ≤ 10 ∧
      (checkRelevance p).maxScore = 10 := by
  simp only [checkRelevance]; split_ifs <;> decide

/-- Score bounds of the specificity check. -/
theorem checkSpecificity_bounds (p : Str) :
    1 ≤ (checkSpecificity p).score ∧ (checkSpecificity p).score ≤ 10 ∧
      (checkSpecificity p).maxScore = 10 := by
  simp only [checkSpecificity]; split_ifs <;> decide

/-- Score bounds of the context check. -/
theorem checkContext_bounds (p : Str) :
    1 ≤ (checkContext p).score ∧ (checkContext p).score ≤ 10 ∧
      (checkContext p).maxScore = 10 := by
  simp only [checkContext]; split_ifs <;> decide

set_option maxHeartbeats 2000000 in
/-- Score bounds of the structure check. -/
theorem checkStructure_bounds (p : Str) :
    1 ≤ (checkStructure p).score ∧ (checkStructure p).score ≤ 10 ∧
      (checkStructure p).maxScore = 10 := by
  simp only [checkStructure]; split_ifs <;> decide

/-- Score bounds of the constraints check. -/
theorem checkConstraints_bounds (p : Str) :
    1 ≤ (checkConstraints p).score ∧ (checkConstraints p).score ≤ 10 ∧
      (checkConstraints p).maxScore = 10 := by
  simp only [checkConstraints]; split_ifs <;> decide

/-- Score bounds of the output-format check. -/
theorem checkOutputFormat_bounds (p : Str) :
    1 ≤ (checkOutputFormat p).score ∧ (checkOutputFormat p).score ≤ 10 ∧
      (checkOutputFormat p).maxScore = 10 := by
  simp only [checkOutputFormat]; split_ifs <;> decide

/-- Score bounds of the role check. -/
theorem checkRole_bounds (p : Str) :
    1 ≤ (checkRole p).score ∧ (checkRole p).score ≤ 10 ∧
      (checkRole p).maxScore = 10 := by
  simp only [checkRole]; split_ifs <;> decide

/-- Score bounds of the examples check. -/
theorem checkExamples_bounds (p : Str) :
    1 ≤ (checkExamples p).score ∧ (checkExamples p).score ≤ 10 ∧
      (checkExamples p).maxScore = 10 := by
  simp only [checkExamples]; split_ifs <;> decide

/-- C9: `Analyze` runs exactly 9 criteria, every criterion score lies in
[1,10] and never exceeds its maximum, and the overall score is the
integer `(sum of scores * 100) / (sum of max scores)`, which is at most
100 (and at least 0, being a natural number). As a Lean function of the
prompt, `analyze` is deterministic and pure by construction. -/
theorem c9_analyze_scores (p : Str) :
    (analyze p).criteria.length = 9 ∧
    (∀ c ∈ (analyze p).criteria,
      1 ≤ c.score ∧ c.score ≤ 10 ∧ c.score ≤ c.maxScore) ∧
    (analyze p).overallScore =
      (((analyze p).criteria.map (·.score)).sum * 100) /
        ((analyze p).criteria.map (·.maxScore)).sum ∧
    (analyze p).overallScore ≤ 100 := by
  have b1 := checkClarity_bounds p
  have b2 := checkRelevance_bounds p
  have b3 := checkSpecificity_bounds p
  have b4 := checkContext_bounds p
  have b5 := checkStructure_bounds p
  have b6 := checkConstraints_bounds p
  have b7 := checkOutputFormat_bounds p
  have b8 := checkRole_bounds p
  have b9 := checkExamples_bounds p
  have hcrit : (analyze p).criteria = analyzeCriteria p := rfl
  refine ⟨rfl, ?_, rfl, ?_⟩
  · intro c hc
    rw [hcrit] at hc
    simp only [analyzeCriteria, List.mem_cons, List.not_mem_nil, or_false] at hc
    rcases hc with rfl | rfl | rfl | rfl | rfl | rfl | rfl | rfl | rfl <;>
      first
      | exact ⟨b1.1, b1.2.1, by rw [b1.2.2]; exact b1.2.1⟩
      | exact ⟨b2.1, b2.2.1, by rw [b2.2.2]; exact b2.2.1⟩
      | exact ⟨b3.1, b3.2.1, by rw [b3.2.2]; exact b3.2.1⟩
      | exact ⟨b4.1, b4.2.1, by rw [b4.2.2]; exact b4.2.1⟩
      | exact ⟨b5.1, b5.2.1, by rw [b5.2.2]; exact b5.2.1⟩
      | exact ⟨b6.1, b6.2.1, by rw [b6.2.2]; exact b6.2.1⟩
      | exact ⟨b7.1, b7.2.1, by rw [b7.2.2]; exact b7.2.1⟩
      | exact ⟨b8.1, b8.2.1, by rw [b8.2.2]; exact b8.2.1⟩
      | exact ⟨b9.1, b9.2.1, by rw [b9.2.2]; exact b9.2.1⟩
  · have hmax : ((analyzeCriteria p).map (·.maxScore)).sum = 90 := by
      simp [analyzeCriteria, b1.2.2, b2.2.2, b3.2.2, b4.2.2, b5.2.2,
        b6.2.2, b7.2.2, b8.2.2, b9.2.2]
    have hsum : ((analyzeCriteria p).map (·.score)).sum ≤ 90 := by
      simp only [analyzeCriteria, List.map_cons, List.map_nil,
        List.sum_cons, List.sum_nil]
      omega
    have hform : (analyze p).overallScore =
        ((analyzeCriteria p).map (·.score)).sum * 100 /
          ((analyzeCriteria p).map (·.maxScore)).sum := rfl
    rw [hform, hmax]
    calc ((analyzeCriteria p).map (·.score)).sum * 100 / 90
        ≤ 90 * 100 / 90 :=
          Nat.div_le_div_right (Nat.mul_le_mul_right 100 hsum)
      _ = 100 := by norm_num
